import Mathlib

/-!
Verification of the OTP issuance-and-validation workflow of
`src/api/index.py` (Flask backend).

Shallow embedding choices:
* JSON field values reaching `data.get(...)` are modelled by `JVal`
  (absent field ↦ `jnull`, JSON integer ↦ `jnum`, JSON string ↦ `jstr`).
* Python `int(x)` is `pyInt` : it succeeds on integers and integer-shaped
  strings and raises (returns `.error msg`) on `None` and unparsable
  strings; the message text stands in for the Python runtime exception
  text `str(e)` — distinct faults yield distinct messages, which is all
  the development relies on.
* Python truthiness (`if not x`) is `pyFalsy` / integer zero tests.
* The `otps` table (`key STRING PRIMARY KEY, otp STRING, created_at
  TIMESTAMP`) is a `List OtpRow`; `SELECT ... WHERE key = %s` with
  `fetchone()` is `selectOtp` (first match), the
  `INSERT ... ON CONFLICT (key) DO UPDATE` statement is `upsertOtp`,
  `DELETE FROM otps WHERE key = %s` is `deleteOtp`.
* The `employees` table lookup is `findEmployee` over a `List Employee`;
  a NULL email is `none`, so the Python falsiness test on the email is
  `emailFalsy` (catches NULL and the empty string).
* Time is an integer count of seconds; `timedelta(minutes=5)` is `300`.
* The random draw `str(random.randint(1000, 9999))` and the SMTP
  environment are externalized: the sampled code string and the
  mail-delivery outcome (`GMAIL_EMAIL`/`GMAIL_APP_PASSWORD` configured,
  `send_otp_email` success) are parameters of `request_otp`.
-/

namespace TranscriptBackend

/-- A JSON value as it comes out of `data.get(field)`: an absent field
gives `jnull` (Python `None`). -/
inductive JVal where
  | jnull : JVal
  | jnum : Int → JVal
  | jstr : String → JVal
deriving DecidableEq

/-- Python truthiness test `not x` on a JSON value: `None`, `0` and the
empty string are falsy. -/
def pyFalsy : JVal → Bool
  | .jnull => true
  | .jnum n => n == 0
  | .jstr s => s == ""

/-- Accumulate a decimal digit run; any non-digit character fails. -/
def parseDigitsAux : List Char → Nat → Option Nat
  | [], acc => some acc
  | c :: cs, acc =>
    if c.isDigit then parseDigitsAux cs (acc * 10 + (c.toNat - 48)) else none

/-- A non-empty all-digit run, else `none`. -/
def parseDigits (cs : List Char) : Option Nat :=
  if cs.isEmpty then none else parseDigitsAux cs 0

/-- Decimal parse of Python `int(str)`: an optional minus sign followed
by one or more ASCII digits (a simplification of CPython, which also
strips surrounding whitespace and accepts a plus sign and underscores;
no claim depends on those extras). -/
def parseIntStr (s : String) : Option Int :=
  match s.data with
  | [] => none
  | c :: cs =>
    if c = '-' then (parseDigits cs).map (fun n => -(n : Int))
    else (parseDigits (c :: cs)).map (fun n => (n : Int))

/-- Python `int(x)`: identity on integers, decimal parse on strings,
`TypeError` on `None`, `ValueError` on unparsable strings. The error
string models `str(e)` of the raised exception. -/
def pyInt : JVal → Except String Int
  | .jnull => .error "int() argument must be a string, a bytes-like object or a real number, not NoneType"
  | .jnum n => .ok n
  | .jstr s =>
    match parseIntStr s with
    | some n => .ok n
    | none => .error ("invalid literal for int() with base 10: " ++ s)

/-- Python `!=` between a JSON value and a stored string, negated:
`stored == entered` holds only when `entered` is the identical string
(a Python `int` never equals a `str`). -/
def pyEqStr : JVal → String → Bool
  | .jstr s, t => s == t
  | _, _ => false

/-- A row of the `employees` table as used by `request_otp`
(`SELECT empemail FROM employees WHERE orgid = %s AND empid = %s`);
`empemail` is `none` when the column is NULL. -/
structure Employee where
  orgid : Int
  empid : Int
  empemail : Option String
deriving DecidableEq

/-- Python falsiness of the fetched email: NULL or empty string. -/
def emailFalsy : Option String → Bool
  | none => true
  | some s => s == ""

/-- `cursor.fetchone()` after the employees SELECT: first matching row. -/
def findEmployee (emps : List Employee) (orgid empid : Int) : Option Employee :=
  emps.find? (fun r => r.orgid == orgid && r.empid == empid)

/-- A row of the `otps` table: `key STRING PRIMARY KEY, otp STRING,
created_at TIMESTAMP`. -/
structure OtpRow where
  key : String
  otp : String
  created_at : Int
deriving DecidableEq

/-- `SELECT otp, created_at FROM otps WHERE key = %s` + `fetchone()`. -/
def selectOtp (db : List OtpRow) (k : String) : Option OtpRow :=
  db.find? (fun r => r.key == k)

/-- The row update performed by `ON CONFLICT (key) DO UPDATE SET otp = %s,
created_at = %s` on a conflicting row. -/
def updRow (k c : String) (t : Int) (r : OtpRow) : OtpRow :=
  if r.key == k then ⟨r.key, c, t⟩ else r

/-- `INSERT INTO otps (key, otp, created_at) VALUES (...) ON CONFLICT (key)
DO UPDATE SET otp = ..., created_at = ...`: update in place when the key
is present, append otherwise. -/
def upsertOtp (db : List OtpRow) (k c : String) (t : Int) : List OtpRow :=
  if db.any (fun r => r.key == k) then db.map (updRow k c t)
  else db ++ [⟨k, c, t⟩]

/-- `DELETE FROM otps WHERE key = %s`. -/
def deleteOtp (db : List OtpRow) (k : String) : List OtpRow :=
  db.filter (fun r => !(r.key == k))

/-- The composite key `f"{orgid}-{empid}"`. -/
def mkKey (orgid empid : Int) : String :=
  toString orgid ++ "-" ++ toString empid

/-- A JSON response body: `{"message": ...}`, `{"error": ...}`, or the
validate-success body `{"message": ..., "orgId": ..., "empId": ...}`. -/
inductive Body where
  | msg : String → Body
  | err : String → Body
  | ok : String → Int → Int → Body
deriving DecidableEq

/-- An HTTP response: status code and JSON body. -/
structure Resp where
  status : Nat
  body : Body
deriving DecidableEq

/-- The SMTP environment of a `request_otp` call: whether `GMAIL_EMAIL`
and `GMAIL_APP_PASSWORD` are both configured, and whether
`send_otp_email` would succeed. -/
structure MailCfg where
  gmail_configured : Bool
  send_succeeds : Bool
deriving DecidableEq

/-- The `/api/request-otp` handler. Parameters beyond the JSON fields
`orgIdV`, `empIdV`: the directory (`employees` table) `emps`, the OTP
store `db`, the current time `now` (`datetime.now()`), the sampled code
`code` (`str(random.randint(1000, 9999))`) and the SMTP environment
`cfg`. Returns the HTTP response and the resulting OTP store. The
broad `except` clause of the source maps a raised exception `e` to
status 500 with body `"Unexpected error: " ++ e`. -/
def request_otp (cfg : MailCfg) (emps : List Employee) (db : List OtpRow)
    (now : Int) (code : String) (orgIdV empIdV : JVal) : Resp × List OtpRow :=
  match pyInt orgIdV with
  | .error e => (⟨500, .err ("Unexpected error: " ++ e)⟩, db)
  | .ok orgid =>
    match pyInt empIdV with
    | .error e => (⟨500, .err ("Unexpected error: " ++ e)⟩, db)
    | .ok empid =>
      if orgid == 0 || empid == 0 then
        (⟨400, .err "orgid and empid are required"⟩, db)
      else
        match findEmployee emps orgid empid with
        | none => (⟨404, .err "No employee found with this orgid and empid"⟩, db)
        | some emp =>
          if emailFalsy emp.empemail then
            (⟨400, .err "Employee email not found"⟩, db)
          else
            let db2 := upsertOtp db (mkKey orgid empid) code now
            if cfg.gmail_configured then
              if cfg.send_succeeds then
                (⟨200, .msg "OTP sent to your registered email address"⟩, db2)
              else
                (⟨200, .msg "Failed to send OTP via email. Check the server console for the OTP."⟩, db2)
            else
              (⟨200, .msg "Email service not configured. Check the server console for the OTP."⟩, db2)

/-- The `/api/validate-otp` handler. `otpV` is the raw JSON field
`data.get("otp")`, compared to the stored code without coercion.
Expiry: `datetime.now() - created_at > timedelta(minutes=5)`, i.e.
`now - created_at > 300` seconds. -/
def validate_otp (db : List OtpRow) (now : Int)
    (orgIdV empIdV otpV : JVal) : Resp × List OtpRow :=
  match pyInt orgIdV with
  | .error e => (⟨500, .err ("Unexpected error: " ++ e)⟩, db)
  | .ok orgid =>
    match pyInt empIdV with
    | .error e => (⟨500, .err ("Unexpected error: " ++ e)⟩, db)
    | .ok empid =>
      if orgid == 0 || empid == 0 || pyFalsy otpV then
        (⟨400, .err "orgid, empid, and OTP are required"⟩, db)
      else
        let key := mkKey orgid empid
        match selectOtp db key with
        | none => (⟨400, .err "OTP not found or expired"⟩, db)
        | some row =>
          if now - row.created_at > 300 then
            (⟨400, .err "OTP expired"⟩, deleteOtp db key)
          else if !(pyEqStr otpV row.otp) then
            (⟨400, .err "Invalid OTP"⟩, db)
          else
            (⟨200, .ok "OTP validated successfully" orgid empid⟩, deleteOtp db key)

/-- At most one `otps` row per key (the PRIMARY KEY constraint of
`init_db`). -/
def keyUnique (db : List OtpRow) : Prop :=
  (db.map (fun r => r.key)).Nodup

/-- `updRow` never changes the key of a row. -/
theorem updRow_key (k c : String) (t : Int) (r : OtpRow) :
    (updRow k c t r).key = r.key := by
  unfold updRow; split <;> rfl

/-- After an upsert, the select for the upserted key returns exactly the
fresh row. -/
theorem selectOtp_upsert (db : List OtpRow) (k c : String) (t : Int) :
    selectOtp (upsertOtp db k c t) k = some ⟨k, c, t⟩ := by
  unfold selectOtp upsertOtp
  split
  · rename_i h
    rw [List.find?_map]
    have hcomp : ((fun r : OtpRow => r.key == k) ∘ updRow k c t) =
        fun r : OtpRow => r.key == k := by
      funext r
      simp [Function.comp, updRow_key]
    rw [hcomp]
    have hsome : (db.find? fun r => r.key == k).isSome := by
      rw [List.find?_isSome]
      obtain ⟨r0, hr0mem, hr0⟩ := List.any_eq_true.mp h
      exact ⟨r0, hr0mem, hr0⟩
    obtain ⟨r1, hr1⟩ := Option.isSome_iff_exists.mp hsome
    rw [hr1]
    have hk : r1.key = k := by
      have hb := List.find?_some hr1
      exact beq_iff_eq.mp hb
    simp [updRow, hk]
  · rename_i h
    rw [List.find?_append]
    have hnone : db.find? (fun r => r.key == k) = none := by
      rw [List.find?_eq_none]
      intro x hx hpx
      exact h (List.any_eq_true.mpr ⟨x, hx, hpx⟩)
    rw [hnone]
    simp

/-- After a delete, the select for the deleted key returns nothing. -/
theorem selectOtp_delete (db : List OtpRow) (k : String) :
    selectOtp (deleteOtp db k) k = none := by
  unfold selectOtp deleteOtp
  rw [List.find?_eq_none]
  intro x hx
  have hm := List.mem_filter.mp hx
  simpa using hm.2

/-- An upsert on a key already present updates in place: the row count
does not change. -/
theorem upsertOtp_length_of_any (db : List OtpRow) (k c : String) (t : Int)
    (h : db.any (fun r => r.key == k) = true) :
    (upsertOtp db k c t).length = db.length := by
  unfold upsertOtp
  rw [if_pos h, List.length_map]

/-- The upserted key is present afterwards. -/
theorem any_upsertOtp (db : List OtpRow) (k c : String) (t : Int) :
    (upsertOtp db k c t).any (fun r => r.key == k) = true := by
  rw [List.any_eq_true]
  have h := selectOtp_upsert db k c t
  unfold selectOtp at h
  exact ⟨⟨k, c, t⟩, List.mem_of_find?_eq_some h, by simp⟩

/-- Upsert preserves key uniqueness. -/
theorem keyUnique_upsertOtp (db : List OtpRow) (k c : String) (t : Int)
    (h : keyUnique db) : keyUnique (upsertOtp db k c t) := by
  unfold keyUnique upsertOtp at *
  split
  · rw [List.map_map]
    have hcomp : ((fun r : OtpRow => r.key) ∘ updRow k c t) =
        fun r : OtpRow => r.key := by
      funext r
      simp [Function.comp, updRow_key]
    rw [hcomp]
    exact h
  · rename_i hne
    rw [List.map_append]
    refine List.Nodup.append h (by simp) ?_
    intro a ha hb
    simp only [List.map_cons, List.map_nil, List.mem_singleton] at hb
    subst hb
    obtain ⟨r, hr, hrk⟩ := List.mem_map.mp ha
    exact hne (List.any_eq_true.mpr ⟨r, hr, by simp [hrk]⟩)

/-- Delete preserves key uniqueness. -/
theorem keyUnique_deleteOtp (db : List OtpRow) (k : String)
    (h : keyUnique db) : keyUnique (deleteOtp db k) := by
  unfold keyUnique deleteOtp at *
  exact List.Nodup.sublist (List.Sublist.map _ (List.filter_sublist db)) h

/-- A resolved `request_otp` call (both ids coerce and are nonzero, the
directory entry exists with a usable email) always answers 200, with the
body determined by the SMTP environment, and upserts the fresh code. -/
theorem request_otp_resolved (cfg : MailCfg) (emps : List Employee)
    (db : List OtpRow) (now : Int) (code : String) (orgid empid : Int)
    (emp : Employee)
    (ho : orgid ≠ 0) (he : empid ≠ 0)
    (hemp : findEmployee emps orgid empid = some emp)
    (hmail : emailFalsy emp.empemail = false) :
    request_otp cfg emps db now code (.jnum orgid) (.jnum empid) =
      (⟨200,
        if cfg.gmail_configured then
          if cfg.send_succeeds then
            .msg "OTP sent to your registered email address"
          else
            .msg "Failed to send OTP via email. Check the server console for the OTP."
        else
          .msg "Email service not configured. Check the server console for the OTP."⟩,
       upsertOtp db (mkKey orgid empid) code now) := by
  have h1 : (orgid == 0) = false := by
    simp [ho]
  have h2 : (empid == 0) = false := by
    simp [he]
  rcases cfg with ⟨g, s⟩
  cases g <;> cases s <;> simp [request_otp, pyInt, h1, h2, hemp, hmail]

/-- A `validate_otp` call that passes the required-field check and finds
a row for its key reduces to the expiry/match cascade on that row. -/
theorem validate_otp_found (db : List OtpRow) (now : Int) (orgid empid : Int)
    (otpv : JVal) (row : OtpRow)
    (ho : orgid ≠ 0) (he : empid ≠ 0) (hotpv : pyFalsy otpv = false)
    (hrow : selectOtp db (mkKey orgid empid) = some row) :
    validate_otp db now (.jnum orgid) (.jnum empid) otpv =
      if now - row.created_at > 300 then
        (⟨400, .err "OTP expired"⟩, deleteOtp db (mkKey orgid empid))
      else if !(pyEqStr otpv row.otp) then
        (⟨400, .err "Invalid OTP"⟩, db)
      else
        (⟨200, .ok "OTP validated successfully" orgid empid⟩,
         deleteOtp db (mkKey orgid empid)) := by
  have h1 : (orgid == 0) = false := by
    simp [ho]
  have h2 : (empid == 0) = false := by
    simp [he]
  simp only [validate_otp, pyInt, h1, h2, hotpv, Bool.or_self, Bool.or_false,
    Bool.false_or, Bool.false_eq_true, if_false, hrow]

/-- A `validate_otp` call that passes the required-field check and finds
no row for its key answers the NotFound error and leaves the store
untouched. -/
theorem validate_otp_notfound (db : List OtpRow) (now : Int)
    (orgid empid : Int) (otpv : JVal)
    (ho : orgid ≠ 0) (he : empid ≠ 0) (hotpv : pyFalsy otpv = false)
    (hnone : selectOtp db (mkKey orgid empid) = none) :
    validate_otp db now (.jnum orgid) (.jnum empid) otpv =
      (⟨400, .err "OTP not found or expired"⟩, db) := by
  have h1 : (orgid == 0) = false := by
    simp [ho]
  have h2 : (empid == 0) = false := by
    simp [he]
  simp only [validate_otp, pyInt, h1, h2, hotpv, Bool.or_self, Bool.or_false,
    Bool.false_or, Bool.false_eq_true, if_false, hnone]

/-- A `validate_otp` call whose required-field condition fires answers
the 400 required-fields error and leaves the store untouched. -/
theorem validate_otp_required (db : List OtpRow) (now : Int)
    (orgid empid : Int) (otpv : JVal)
    (h : (orgid == 0 || empid == 0 || pyFalsy otpv) = true) :
    validate_otp db now (.jnum orgid) (.jnum empid) otpv =
      (⟨400, .err "orgid, empid, and OTP are required"⟩, db) := by
  simp [validate_otp, pyInt, h]

example :
    request_otp ⟨true, true⟩ [⟨1, 2, some "a@x.com"⟩] [] 0 "1234" (.jnum 1) (.jnum 2) =
      (⟨200, .msg "OTP sent to your registered email address"⟩, [⟨"1-2", "1234", 0⟩]) := by
  decide

example :
    validate_otp [⟨"1-2", "1234", 0⟩] 100 (.jnum 1) (.jnum 2) (.jstr "1234") =
      (⟨200, .ok "OTP validated successfully" 1 2⟩, []) := by
  decide

example :
    (validate_otp [⟨"1-2", "1234", 0⟩] 400 (.jnum 1) (.jnum 2) (.jstr "1234")).1 =
      ⟨400, .err "OTP expired"⟩ := by
  decide

example :
    (validate_otp [⟨"1-2", "1234", 0⟩] 100 (.jnum 1) (.jnum 2) (.jnum 1234)).1 =
      ⟨400, .err "Invalid OTP"⟩ := by
  decide

example :
    (request_otp ⟨true, true⟩ [] [] 0 "1234" .jnull (.jnum 2)).1.status = 500 := by
  decide

/-- The OTP store returned by `request_otp` is either the input store or
an upsert of the fresh code into it. -/
theorem request_otp_db_shape (cfg : MailCfg) (emps : List Employee)
    (db : List OtpRow) (now : Int) (code : String) (ov ev : JVal) :
    (request_otp cfg emps db now code ov ev).2 = db ∨
    ∃ k, (request_otp cfg emps db now code ov ev).2 = upsertOtp db k code now := by
  cases hov : pyInt ov with
  | error e =>
    simp [request_otp, hov]
  | ok orgid =>
    cases hev : pyInt ev with
    | error e =>
      simp [request_otp, hov, hev]
    | ok empid =>
      by_cases hz : (orgid == 0 || empid == 0) = true
      · simp [request_otp, hov, hev, hz]
      · have hz' : (orgid == 0 || empid == 0) = false := by
          simpa using hz
        cases hemp : findEmployee emps orgid empid with
        | none =>
          simp [request_otp, hov, hev, hz', hemp]
        | some emp =>
          by_cases hm : emailFalsy emp.empemail = true
          · simp [request_otp, hov, hev, hz', hemp, hm]
          · have hm' : emailFalsy emp.empemail = false := by
              simpa using hm
            rcases cfg with ⟨g, s⟩
            cases g <;> cases s <;>
              exact Or.inr ⟨mkKey orgid empid,
                by simp [request_otp, hov, hev, hz', hemp, hm']⟩

/-- The OTP store returned by `validate_otp` is either the input store
or the input store with one key deleted. -/
theorem validate_otp_db_shape (db : List OtpRow) (now : Int)
    (ov ev otpv : JVal) :
    (validate_otp db now ov ev otpv).2 = db ∨
    ∃ k, (validate_otp db now ov ev otpv).2 = deleteOtp db k := by
  cases hov : pyInt ov with
  | error e =>
    simp [validate_otp, hov]
  | ok orgid =>
    cases hev : pyInt ev with
    | error e =>
      simp [validate_otp, hov, hev]
    | ok empid =>
      by_cases hz : (orgid == 0 || empid == 0 || pyFalsy otpv) = true
      · simp [validate_otp, hov, hev, hz]
      · have hz' : (orgid == 0 || empid == 0 || pyFalsy otpv) = false := by
          simpa using hz
        cases hsel : selectOtp db (mkKey orgid empid) with
        | none =>
          simp [validate_otp, hov, hev, hz', hsel]
        | some row =>
          by_cases hexp : now - row.created_at > 300
          · exact Or.inr ⟨mkKey orgid empid,
              by simp [validate_otp, hov, hev, hz', hsel, hexp]⟩
          · by_cases hmm : (!pyEqStr otpv row.otp) = true
            · simp [validate_otp, hov, hev, hz', hsel, hexp, hmm]
            · have hmm' : (!pyEqStr otpv row.otp) = false := by
                simpa using hmm
              exact Or.inr ⟨mkKey orgid empid,
                by simp [validate_otp, hov, hev, hz', hsel, hexp, hmm']⟩

/-- Claim C1: for every (orgId, empId) pair that resolves to a directory
entry with a non-empty email, `request_otp` answers 200 and a
`validate_otp` with the stored code within 5 minutes answers success with
the original orgId and empId echoed back and deletes the OtpRecord; a
second `validate_otp` with that same code afterwards answers the
NotFound error. -/
theorem C1_request_validate_roundtrip
    (cfg : MailCfg) (emps : List Employee) (db db1 db2 : List OtpRow)
    (t1 t2 t3 : Int) (code : String) (orgid empid : Int) (emp : Employee)
    (ho : orgid ≠ 0) (he : empid ≠ 0)
    (hemp : findEmployee emps orgid empid = some emp)
    (hmail : emailFalsy emp.empemail = false)
    (hcode : code ≠ "")
    (hdb1 : db1 = (request_otp cfg emps db t1 code (.jnum orgid) (.jnum empid)).2)
    (hfresh : t2 - t1 ≤ 300)
    (hdb2 : db2 = (validate_otp db1 t2 (.jnum orgid) (.jnum empid) (.jstr code)).2) :
    (request_otp cfg emps db t1 code (.jnum orgid) (.jnum empid)).1.status = 200 ∧
    (validate_otp db1 t2 (.jnum orgid) (.jnum empid) (.jstr code)).1 =
      ⟨200, .ok "OTP validated successfully" orgid empid⟩ ∧
    selectOtp db2 (mkKey orgid empid) = none ∧
    (validate_otp db2 t3 (.jnum orgid) (.jnum empid) (.jstr code)).1 =
      ⟨400, .err "OTP not found or expired"⟩ := by
  have hreq := request_otp_resolved cfg emps db t1 code orgid empid emp ho he hemp hmail
  have hfalsy : pyFalsy (.jstr code) = false := by
    simp [pyFalsy, hcode]
  have hsel : selectOtp db1 (mkKey orgid empid) =
      some ⟨mkKey orgid empid, code, t1⟩ := by
    rw [hdb1, hreq]
    exact selectOtp_upsert db (mkKey orgid empid) code t1
  have hval := validate_otp_found db1 t2 orgid empid (.jstr code)
    ⟨mkKey orgid empid, code, t1⟩ ho he hfalsy hsel
  have hnexp : ¬ (t2 - (⟨mkKey orgid empid, code, t1⟩ : OtpRow).created_at > 300) := by
    simp only []
    omega
  rw [if_neg hnexp] at hval
  simp only [pyEqStr, beq_self_eq_true, Bool.not_true, Bool.false_eq_true,
    if_false] at hval
  have hdb2' : db2 = deleteOtp db1 (mkKey orgid empid) := by
    rw [hdb2, hval]
  refine ⟨by rw [hreq], by rw [hval], ?_, ?_⟩
  · rw [hdb2']
    exact selectOtp_delete db1 (mkKey orgid empid)
  · have h4 := validate_otp_notfound db2 t3 orgid empid (.jstr code) ho he hfalsy
      (by rw [hdb2']; exact selectOtp_delete db1 (mkKey orgid empid))
    rw [h4]

/-- Claim C3: a `validate_otp` strictly more than 5 minutes after
`created_at` deletes the record and answers Expired regardless of the
submitted value; a second `validate_otp` for the same key then answers
the NotFound error; and a validation at most 5 minutes after
`created_at` is never answered Expired. -/
theorem C3_expiry_consumes
    (db db2 : List OtpRow) (now t3 : Int) (orgid empid : Int) (row : OtpRow)
    (entered : JVal)
    (ho : orgid ≠ 0) (he : empid ≠ 0)
    (hent : pyFalsy entered = false)
    (hrow : selectOtp db (mkKey orgid empid) = some row)
    (hexp : now - row.created_at > 300)
    (hdb2 : db2 = (validate_otp db now (.jnum orgid) (.jnum empid) entered).2) :
    validate_otp db now (.jnum orgid) (.jnum empid) entered =
      (⟨400, .err "OTP expired"⟩, deleteOtp db (mkKey orgid empid)) ∧
    selectOtp db2 (mkKey orgid empid) = none ∧
    (validate_otp db2 t3 (.jnum orgid) (.jnum empid) entered).1 =
      ⟨400, .err "OTP not found or expired"⟩ ∧
    ∀ (dbf : List OtpRow) (t4 : Int) (rowf : OtpRow) (ef : JVal),
      selectOtp dbf (mkKey orgid empid) = some rowf →
      t4 - rowf.created_at ≤ 300 →
      (validate_otp dbf t4 (.jnum orgid) (.jnum empid) ef).1.body ≠
        .err "OTP expired" := by
  have hval := validate_otp_found db now orgid empid entered row ho he hent hrow
  rw [if_pos hexp] at hval
  have hdb2' : db2 = deleteOtp db (mkKey orgid empid) := by
    rw [hdb2, hval]
  refine ⟨hval, ?_, ?_, ?_⟩
  · rw [hdb2']
    exact selectOtp_delete db (mkKey orgid empid)
  · have h3 := validate_otp_notfound db2 t3 orgid empid entered ho he hent
      (by rw [hdb2']; exact selectOtp_delete db (mkKey orgid empid))
    rw [h3]
  · intro dbf t4 rowf ef hs hle
    by_cases hf : pyFalsy ef = true
    · have hreq := validate_otp_required dbf t4 orgid empid ef (by simp [hf])
      rw [hreq]
      exact fun hc => absurd (Body.err.inj hc) (by decide)
    · have hf' : pyFalsy ef = false := by
        simpa using hf
      have hvalf := validate_otp_found dbf t4 orgid empid ef rowf ho he hf' hs
      rw [if_neg (by omega)] at hvalf
      by_cases hm : pyEqStr ef rowf.otp = true
      · simp only [hm, Bool.not_true, Bool.false_eq_true, if_false] at hvalf
        rw [hvalf]
        simp
      · have hm' : pyEqStr ef rowf.otp = false := by
          simpa using hm
        simp only [hm', Bool.not_false, if_true] at hvalf
        rw [hvalf]
        exact fun hc => absurd (Body.err.inj hc) (by decide)

/-- Claim C4: before expiry, a submitted code that is not string-equal
to the stored code is answered InvalidCode and the store is unchanged,
so a later `validate_otp` with the correct code before expiry still
succeeds. -/
theorem C4_invalid_code_preserves
    (db : List OtpRow) (now t2 : Int) (orgid empid : Int) (row : OtpRow)
    (s : String)
    (ho : orgid ≠ 0) (he : empid ≠ 0)
    (hrow : selectOtp db (mkKey orgid empid) = some row)
    (hs : s ≠ "") (hneq : s ≠ row.otp)
    (hfresh : now - row.created_at ≤ 300)
    (hotp : row.otp ≠ "")
    (hfresh2 : t2 - row.created_at ≤ 300) :
    validate_otp db now (.jnum orgid) (.jnum empid) (.jstr s) =
      (⟨400, .err "Invalid OTP"⟩, db) ∧
    validate_otp db t2 (.jnum orgid) (.jnum empid) (.jstr row.otp) =
      (⟨200, .ok "OTP validated successfully" orgid empid⟩,
       deleteOtp db (mkKey orgid empid)) := by
  constructor
  · have hval := validate_otp_found db now orgid empid (.jstr s) row ho he
      (by simp [pyFalsy, hs]) hrow
    rw [if_neg (by omega)] at hval
    have hm : pyEqStr (.jstr s) row.otp = false := by
      simp [pyEqStr, hneq]
    simpa only [hm, Bool.not_false, if_true] using hval
  · have hval := validate_otp_found db t2 orgid empid (.jstr row.otp) row ho he
      (by simp [pyFalsy, hotp]) hrow
    rw [if_neg (by omega)] at hval
    simpa only [pyEqStr, beq_self_eq_true, Bool.not_true, Bool.false_eq_true,
      if_false] using hval

/-- Claim C7: `request_otp` for a pair with no directory entry answers
404 NotFound without writing to the OTP store; for an entry whose email
is NULL or empty it answers 400 InvalidContact, likewise without
writing. -/
theorem C7_lookup_failures_no_write
    (cfg : MailCfg) (emps : List Employee) (db : List OtpRow) (now : Int)
    (code : String) (orgid empid : Int)
    (ho : orgid ≠ 0) (he : empid ≠ 0) :
    (findEmployee emps orgid empid = none →
      request_otp cfg emps db now code (.jnum orgid) (.jnum empid) =
        (⟨404, .err "No employee found with this orgid and empid"⟩, db)) ∧
    (∀ emp, findEmployee emps orgid empid = some emp →
      emailFalsy emp.empemail = true →
      request_otp cfg emps db now code (.jnum orgid) (.jnum empid) =
        (⟨400, .err "Employee email not found"⟩, db)) := by
  have h1 : (orgid == 0) = false := by
    simp [ho]
  have h2 : (empid == 0) = false := by
    simp [he]
  constructor
  · intro hnone
    simp [request_otp, pyInt, h1, h2, hnone]
  · intro emp hemp hmail
    simp [request_otp, pyInt, h1, h2, hemp, hmail]

/-- Claim C9: the stored code is a string and the submitted `otp` field
is compared to it without coercion, so a JSON-number submission is
rejected with InvalidCode before expiry, even when its decimal form
equals the stored code. -/
theorem C9_number_never_matches
    (db : List OtpRow) (now : Int) (orgid empid n : Int) (row : OtpRow)
    (ho : orgid ≠ 0) (he : empid ≠ 0) (hn : n ≠ 0)
    (hrow : selectOtp db (mkKey orgid empid) = some row)
    (hfresh : now - row.created_at ≤ 300) :
    validate_otp db now (.jnum orgid) (.jnum empid) (.jnum n) =
      (⟨400, .err "Invalid OTP"⟩, db) := by
  have hval := validate_otp_found db now orgid empid (.jnum n) row ho he
    (by simp [pyFalsy, hn]) hrow
  rw [if_neg (by omega)] at hval
  simpa only [pyEqStr, Bool.not_false, if_true] using hval

/-- Claim C10: an orgId or empId equal to 0 passes `int(...)` but then
fails the falsy required-field check of both handlers, which answer the
400 required-fields error whatever the directory and the OTP store
contain. -/
theorem C10_zero_id_required_error
    (cfg : MailCfg) (emps : List Employee) (db : List OtpRow) (now : Int)
    (code : String) (orgid empid : Int) (otpv : JVal)
    (h : orgid = 0 ∨ empid = 0) :
    request_otp cfg emps db now code (.jnum orgid) (.jnum empid) =
      (⟨400, .err "orgid and empid are required"⟩, db) ∧
    validate_otp db now (.jnum orgid) (.jnum empid) otpv =
      (⟨400, .err "orgid, empid, and OTP are required"⟩, db) := by
  have hb : (orgid == 0 || empid == 0) = true := by
    rcases h with h | h <;> simp [h]
  have hb2 : (orgid == 0 || empid == 0 || pyFalsy otpv) = true := by
    rcases h with h | h <;> simp [h]
  exact ⟨by simp [request_otp, pyInt, hb], validate_otp_required db now orgid empid otpv hb2⟩

/-- Claim C2: every operation keeps at most one OtpRecord per key; a
second `request_otp` for the same pair overwrites code and createdAt in
place (same row count, not an append), after which validating the old
code fails with InvalidCode and validating the new code succeeds. -/
theorem C2_upsert_semantics
    (cfg cfg2 : MailCfg) (emps : List Employee) (db db1 db2 : List OtpRow)
    (t1 t2 t3 : Int) (c1 c2 : String) (orgid empid : Int) (emp : Employee)
    (ho : orgid ≠ 0) (he : empid ≠ 0)
    (hemp : findEmployee emps orgid empid = some emp)
    (hmail : emailFalsy emp.empemail = false)
    (hc1 : c1 ≠ "") (hc2 : c2 ≠ "") (hne : c1 ≠ c2)
    (hdb1 : db1 = (request_otp cfg emps db t1 c1 (.jnum orgid) (.jnum empid)).2)
    (hdb2 : db2 = (request_otp cfg2 emps db1 t2 c2 (.jnum orgid) (.jnum empid)).2)
    (hfresh : t3 - t2 ≤ 300) :
    (∀ cfg' emps' db' t' c' ov ev, keyUnique db' →
      keyUnique (request_otp cfg' emps' db' t' c' ov ev).2) ∧
    (∀ db' t' ov ev otpv, keyUnique db' →
      keyUnique (validate_otp db' t' ov ev otpv).2) ∧
    db2 = upsertOtp db1 (mkKey orgid empid) c2 t2 ∧
    db2.length = db1.length ∧
    selectOtp db2 (mkKey orgid empid) = some ⟨mkKey orgid empid, c2, t2⟩ ∧
    (validate_otp db2 t3 (.jnum orgid) (.jnum empid) (.jstr c1)).1 =
      ⟨400, .err "Invalid OTP"⟩ ∧
    validate_otp db2 t3 (.jnum orgid) (.jnum empid) (.jstr c2) =
      (⟨200, .ok "OTP validated successfully" orgid empid⟩,
       deleteOtp db2 (mkKey orgid empid)) := by
  have hdb1' : db1 = upsertOtp db (mkKey orgid empid) c1 t1 := by
    rw [hdb1, request_otp_resolved cfg emps db t1 c1 orgid empid emp ho he hemp hmail]
  have hdb2' : db2 = upsertOtp db1 (mkKey orgid empid) c2 t2 := by
    rw [hdb2, request_otp_resolved cfg2 emps db1 t2 c2 orgid empid emp ho he hemp hmail]
  have hsel : selectOtp db2 (mkKey orgid empid) =
      some ⟨mkKey orgid empid, c2, t2⟩ := by
    rw [hdb2']
    exact selectOtp_upsert db1 (mkKey orgid empid) c2 t2
  have hvalold := validate_otp_found db2 t3 orgid empid (.jstr c1)
    ⟨mkKey orgid empid, c2, t2⟩ ho he (by simp [pyFalsy, hc1]) hsel
  have hnexp : ¬ (t3 - (⟨mkKey orgid empid, c2, t2⟩ : OtpRow).created_at > 300) := by
    simp only []
    omega
  rw [if_neg hnexp] at hvalold
  have hmold : pyEqStr (.jstr c1) (⟨mkKey orgid empid, c2, t2⟩ : OtpRow).otp = false := by
    simp [pyEqStr, hne]
  simp only [hmold, Bool.not_false, if_true] at hvalold
  have hvalnew := validate_otp_found db2 t3 orgid empid (.jstr c2)
    ⟨mkKey orgid empid, c2, t2⟩ ho he (by simp [pyFalsy, hc2]) hsel
  rw [if_neg hnexp] at hvalnew
  simp only [pyEqStr, beq_self_eq_true, Bool.not_true, Bool.false_eq_true,
    if_false] at hvalnew
  refine ⟨?_, ?_, hdb2', ?_, hsel, by rw [hvalold], hvalnew⟩
  · intro cfg' emps' db' t' c' ov ev hu
    rcases request_otp_db_shape cfg' emps' db' t' c' ov ev with h | ⟨k, h⟩
    · rw [h]
      exact hu
    · rw [h]
      exact keyUnique_upsertOtp db' k c' t' hu
  · intro db' t' ov ev otpv hu
    rcases validate_otp_db_shape db' t' ov ev otpv with h | ⟨k, h⟩
    · rw [h]
      exact hu
    · rw [h]
      exact keyUnique_deleteOtp db' k hu
  · rw [hdb2']
    refine upsertOtp_length_of_any db1 (mkKey orgid empid) c2 t2 ?_
    rw [hdb1']
    exact any_upsertOtp db (mkKey orgid empid) c1 t1

/-- Claim C5 counterexample: a request whose JSON body lacks the orgId
field (so `int(data.get("orgId"))` raises) is answered with status 500
by both handlers, not with a 400-class validation error. -/
theorem C5_counterexample :
    (request_otp ⟨false, false⟩ [] [] 0 "1234" .jnull (.jnum 1)).1.status = 500 ∧
    (validate_otp [] 0 .jnull (.jnum 1) (.jstr "1")).1.status = 500 := by
  decide

/-- Claim C5 (amended): a missing or non-coercible orgId/empId raises
inside `int(...)` before the required-field check and is answered with a
500-class error; the 400-class required-fields error is produced exactly
by ids that coerce to the falsy integer 0 or, for `validate_otp`, by a
falsy otp field when both ids coerce to nonzero integers. -/
theorem C5_field_validation
    (cfg : MailCfg) (emps : List Employee) (db : List OtpRow) (now : Int)
    (code : String) (ov ev otpv : JVal) :
    (∀ e, pyInt ov = .error e →
      (request_otp cfg emps db now code ov ev).1.status = 500 ∧
      (validate_otp db now ov ev otpv).1.status = 500) ∧
    (∀ orgid e, pyInt ov = .ok orgid → pyInt ev = .error e →
      (request_otp cfg emps db now code ov ev).1.status = 500 ∧
      (validate_otp db now ov ev otpv).1.status = 500) ∧
    (∀ orgid empid, pyInt ov = .ok orgid → pyInt ev = .ok empid →
      orgid = 0 ∨ empid = 0 →
      (request_otp cfg emps db now code ov ev).1 =
        ⟨400, .err "orgid and empid are required"⟩ ∧
      (validate_otp db now ov ev otpv).1 =
        ⟨400, .err "orgid, empid, and OTP are required"⟩) ∧
    (∀ orgid empid, pyInt ov = .ok orgid → pyInt ev = .ok empid →
      orgid ≠ 0 → empid ≠ 0 → pyFalsy otpv = true →
      (validate_otp db now ov ev otpv).1 =
        ⟨400, .err "orgid, empid, and OTP are required"⟩) := by
  refine ⟨?_, ?_, ?_, ?_⟩
  · intro e hov
    exact ⟨by simp [request_otp, hov], by simp [validate_otp, hov]⟩
  · intro orgid e hov hev
    exact ⟨by simp [request_otp, hov, hev], by simp [validate_otp, hov, hev]⟩
  · intro orgid empid hov hev hz
    have hb : (orgid == 0 || empid == 0) = true := by
      rcases hz with h | h <;> simp [h]
    have hb2 : (orgid == 0 || empid == 0 || pyFalsy otpv) = true := by
      rcases hz with h | h <;> simp [h]
    exact ⟨by simp [request_otp, hov, hev, hb], by simp [validate_otp, hov, hev, hb2]⟩
  · intro orgid empid hov hev ho he hf
    have hb2 : (orgid == 0 || empid == 0 || pyFalsy otpv) = true := by
      simp [hf]
    simp [validate_otp, hov, hev, hb2]

/-- Claim C6 counterexample: two `request_otp` runs failing with
different internal exceptions (missing orgId vs non-numeric orgId) both
answer 500 but with different caller-visible bodies: the exception text
crosses the boundary. -/
theorem C6_counterexample :
    (request_otp ⟨false, false⟩ [] [] 0 "1234" .jnull (.jnum 1)).1.status = 500 ∧
    (request_otp ⟨false, false⟩ [] [] 0 "1234" (.jstr "abc") (.jnum 1)).1.status = 500 ∧
    (request_otp ⟨false, false⟩ [] [] 0 "1234" .jnull (.jnum 1)).1.body ≠
      (request_otp ⟨false, false⟩ [] [] 0 "1234" (.jstr "abc") (.jnum 1)).1.body := by
  decide

/-- Claim C6 (amended): an unexpected fault in either handler is
answered with status 500 and body `"Unexpected error: "` followed by the
exception text `str(e)`, leaving the store untouched; the exception text
thus crosses the boundary (only the stack trace stays server-side), so
the caller-visible body depends on the internal fault detail. -/
theorem C6_fault_boundary
    (cfg : MailCfg) (emps : List Employee) (db : List OtpRow) (now : Int)
    (code : String) (ov ev otpv : JVal) :
    (∀ e, pyInt ov = .error e →
      request_otp cfg emps db now code ov ev =
        (⟨500, .err ("Unexpected error: " ++ e)⟩, db) ∧
      validate_otp db now ov ev otpv =
        (⟨500, .err ("Unexpected error: " ++ e)⟩, db)) ∧
    (∀ orgid e, pyInt ov = .ok orgid → pyInt ev = .error e →
      request_otp cfg emps db now code ov ev =
        (⟨500, .err ("Unexpected error: " ++ e)⟩, db) ∧
      validate_otp db now ov ev otpv =
        (⟨500, .err ("Unexpected error: " ++ e)⟩, db)) := by
  constructor
  · intro e hov
    exact ⟨by simp [request_otp, hov], by simp [validate_otp, hov]⟩
  · intro orgid e hov hev
    exact ⟨by simp [request_otp, hov, hev], by simp [validate_otp, hov, hev]⟩

/-- Claim C8: when the mail sender is unconfigured or delivery fails, a
resolved `request_otp` still answers 200 with a distinct message saying
the code was not emailed, and the OtpRecord is upserted into the store
regardless of the delivery outcome, so the issued code can still be
validated. -/
theorem C8_delivery_fallback
    (cfg : MailCfg) (emps : List Employee) (db db1 : List OtpRow)
    (t1 t2 : Int) (code : String) (orgid empid : Int) (emp : Employee)
    (ho : orgid ≠ 0) (he : empid ≠ 0)
    (hemp : findEmployee emps orgid empid = some emp)
    (hmail : emailFalsy emp.empemail = false)
    (hcode : code ≠ "")
    (hfb : cfg.gmail_configured = false ∨ cfg.send_succeeds = false)
    (hdb1 : db1 = (request_otp cfg emps db t1 code (.jnum orgid) (.jnum empid)).2)
    (hfresh : t2 - t1 ≤ 300) :
    (request_otp cfg emps db t1 code (.jnum orgid) (.jnum empid)).1.status = 200 ∧
    (cfg.gmail_configured = false →
      (request_otp cfg emps db t1 code (.jnum orgid) (.jnum empid)).1.body =
        .msg "Email service not configured. Check the server console for the OTP.") ∧
    (cfg.gmail_configured = true → cfg.send_succeeds = false →
      (request_otp cfg emps db t1 code (.jnum orgid) (.jnum empid)).1.body =
        .msg "Failed to send OTP via email. Check the server console for the OTP.") ∧
    (request_otp cfg emps db t1 code (.jnum orgid) (.jnum empid)).1.body ≠
      .msg "OTP sent to your registered email address" ∧
    db1 = upsertOtp db (mkKey orgid empid) code t1 ∧
    validate_otp db1 t2 (.jnum orgid) (.jnum empid) (.jstr code) =
      (⟨200, .ok "OTP validated successfully" orgid empid⟩,
       deleteOtp db1 (mkKey orgid empid)) := by
  have hreq := request_otp_resolved cfg emps db t1 code orgid empid emp ho he hemp hmail
  have hdb1' : db1 = upsertOtp db (mkKey orgid empid) code t1 := by
    rw [hdb1, hreq]
  have hsel : selectOtp db1 (mkKey orgid empid) =
      some ⟨mkKey orgid empid, code, t1⟩ := by
    rw [hdb1']
    exact selectOtp_upsert db (mkKey orgid empid) code t1
  have hval := validate_otp_found db1 t2 orgid empid (.jstr code)
    ⟨mkKey orgid empid, code, t1⟩ ho he (by simp [pyFalsy, hcode]) hsel
  have hnexp : ¬ (t2 - (⟨mkKey orgid empid, code, t1⟩ : OtpRow).created_at > 300) := by
    simp only []
    omega
  rw [if_neg hnexp] at hval
  simp only [pyEqStr, beq_self_eq_true, Bool.not_true, Bool.false_eq_true,
    if_false] at hval
  rcases cfg with ⟨g, s⟩
  refine ⟨by rw [hreq], ?_, ?_, ?_, hdb1', hval⟩
  · intro hg
    subst hg
    rw [hreq]
    simp
  · intro hg hs
    subst hg
    subst hs
    rw [hreq]
    simp
  · rcases hfb with hg | hs
    · subst hg
      rw [hreq]
      simp
    · subst hs
      cases g <;> rw [hreq] <;> simp

/-- Witness for C1 at a concrete directory, store, code and clock. -/
theorem C1_request_validate_roundtrip_witness :
    (request_otp ⟨true, true⟩ [⟨1, 2, some "a@x.com"⟩] [] 0 "1234"
      (.jnum 1) (.jnum 2)).1.status = 200 := by
  exact (C1_request_validate_roundtrip ⟨true, true⟩ [⟨1, 2, some "a@x.com"⟩] []
    (request_otp ⟨true, true⟩ [⟨1, 2, some "a@x.com"⟩] [] 0 "1234" (.jnum 1) (.jnum 2)).2
    (validate_otp
      (request_otp ⟨true, true⟩ [⟨1, 2, some "a@x.com"⟩] [] 0 "1234" (.jnum 1) (.jnum 2)).2
      100 (.jnum 1) (.jnum 2) (.jstr "1234")).2
    0 100 200 "1234" 1 2 ⟨1, 2, some "a@x.com"⟩
    (by decide) (by decide) (by decide) (by decide) (by decide) rfl (by decide) rfl).1

/-- Witness for C2 at a concrete directory, two codes and two issue
times. -/
theorem C2_upsert_semantics_witness :
    selectOtp (request_otp ⟨true, true⟩ [⟨1, 2, some "a@x.com"⟩]
        (request_otp ⟨true, true⟩ [⟨1, 2, some "a@x.com"⟩] [] 0 "1111" (.jnum 1) (.jnum 2)).2
        10 "2222" (.jnum 1) (.jnum 2)).2 (mkKey 1 2) =
      some ⟨mkKey 1 2, "2222", 10⟩ := by
  exact (C2_upsert_semantics ⟨true, true⟩ ⟨true, true⟩ [⟨1, 2, some "a@x.com"⟩] []
    (request_otp ⟨true, true⟩ [⟨1, 2, some "a@x.com"⟩] [] 0 "1111" (.jnum 1) (.jnum 2)).2
    (request_otp ⟨true, true⟩ [⟨1, 2, some "a@x.com"⟩]
      (request_otp ⟨true, true⟩ [⟨1, 2, some "a@x.com"⟩] [] 0 "1111" (.jnum 1) (.jnum 2)).2
      10 "2222" (.jnum 1) (.jnum 2)).2
    0 10 100 "1111" "2222" 1 2 ⟨1, 2, some "a@x.com"⟩
    (by decide) (by decide) (by decide) (by decide) (by decide) (by decide) (by decide)
    rfl rfl (by decide)).2.2.2.2.1

/-- Witness for C3 at a concrete stored record and a clock past the
window. -/
theorem C3_expiry_consumes_witness :
    validate_otp [⟨"1-2", "1234", 0⟩] 1000 (.jnum 1) (.jnum 2) (.jstr "1234") =
      (⟨400, .err "OTP expired"⟩, deleteOtp [⟨"1-2", "1234", 0⟩] (mkKey 1 2)) := by
  exact (C3_expiry_consumes [⟨"1-2", "1234", 0⟩]
    (validate_otp [⟨"1-2", "1234", 0⟩] 1000 (.jnum 1) (.jnum 2) (.jstr "1234")).2
    1000 2000 1 2 ⟨"1-2", "1234", 0⟩ (.jstr "1234")
    (by decide) (by decide) (by decide) (by decide) (by decide) rfl).1

/-- Witness for C4 at a concrete stored record and a wrong guess. -/
theorem C4_invalid_code_preserves_witness :
    validate_otp [⟨"1-2", "1234", 0⟩] 100 (.jnum 1) (.jnum 2) (.jstr "9999") =
      (⟨400, .err "Invalid OTP"⟩, [⟨"1-2", "1234", 0⟩]) := by
  exact (C4_invalid_code_preserves [⟨"1-2", "1234", 0⟩] 100 200 1 2
    ⟨"1-2", "1234", 0⟩ "9999"
    (by decide) (by decide) (by decide) (by decide) (by decide) (by decide)
    (by decide) (by decide)).1

/-- Witness for the amended C5 at a request with a missing orgId. -/
theorem C5_field_validation_witness :
    (request_otp ⟨false, false⟩ [] [] 0 "1234" .jnull (.jnum 1)).1.status = 500 := by
  exact ((C5_field_validation ⟨false, false⟩ [] [] 0 "1234" .jnull (.jnum 1)
    (.jstr "1")).1
    "int() argument must be a string, a bytes-like object or a real number, not NoneType"
    rfl).1

/-- Witness for the amended C6 at a request with a missing orgId. -/
theorem C6_fault_boundary_witness :
    request_otp ⟨false, false⟩ [] [] 0 "1234" .jnull (.jnum 1) =
      (⟨500, .err ("Unexpected error: " ++
        "int() argument must be a string, a bytes-like object or a real number, not NoneType")⟩,
       []) := by
  exact ((C6_fault_boundary ⟨false, false⟩ [] [] 0 "1234" .jnull (.jnum 1)
    (.jstr "1")).1
    "int() argument must be a string, a bytes-like object or a real number, not NoneType"
    rfl).1

/-- Witness for C7 at an empty directory. -/
theorem C7_lookup_failures_no_write_witness :
    request_otp ⟨true, true⟩ [] [] 0 "1234" (.jnum 1) (.jnum 2) =
      (⟨404, .err "No employee found with this orgid and empid"⟩, []) := by
  exact (C7_lookup_failures_no_write ⟨true, true⟩ [] [] 0 "1234" 1 2
    (by decide) (by decide)).1 rfl

/-- Witness for C8 with the mail sender unconfigured. -/
theorem C8_delivery_fallback_witness :
    (request_otp ⟨false, false⟩ [⟨1, 2, some "a@x.com"⟩] [] 0 "1234"
      (.jnum 1) (.jnum 2)).1.status = 200 := by
  exact (C8_delivery_fallback ⟨false, false⟩ [⟨1, 2, some "a@x.com"⟩] []
    (request_otp ⟨false, false⟩ [⟨1, 2, some "a@x.com"⟩] [] 0 "1234" (.jnum 1) (.jnum 2)).2
    0 100 "1234" 1 2 ⟨1, 2, some "a@x.com"⟩
    (by decide) (by decide) (by decide) (by decide) (by decide) (Or.inl rfl)
    rfl (by decide)).1

/-- Witness for C9: stored string "1234", submitted JSON number 1234. -/
theorem C9_number_never_matches_witness :
    validate_otp [⟨"1-1", "1234", 0⟩] 100 (.jnum 1) (.jnum 1) (.jnum 1234) =
      (⟨400, .err "Invalid OTP"⟩, [⟨"1-1", "1234", 0⟩]) := by
  exact C9_number_never_matches [⟨"1-1", "1234", 0⟩] 100 1 1 1234
    ⟨"1-1", "1234", 0⟩ (by decide) (by decide) (by decide) (by decide) (by decide)

/-- Witness for C10: orgId 0 with an existing directory entry and an
existing OtpRecord. -/
theorem C10_zero_id_required_error_witness :
    request_otp ⟨true, true⟩ [⟨0, 5, some "a@x.com"⟩] [⟨"0-5", "1234", 0⟩] 0 "9999"
        (.jnum 0) (.jnum 5) =
      (⟨400, .err "orgid and empid are required"⟩, [⟨"0-5", "1234", 0⟩]) := by
  exact (C10_zero_id_required_error ⟨true, true⟩ [⟨0, 5, some "a@x.com"⟩]
    [⟨"0-5", "1234", 0⟩] 0 "9999" 0 5 (.jstr "1234") (Or.inl rfl)).1

end TranscriptBackend
